import Mathlib

/-!
Verification of the `faizalmsdev/Python-tools` repository: a shallow
embedding in Lean 4 of its two scripts and proofs about their behaviour.

* `scrapeExchangeRates/scrapeExchangeRates.py` — class `XRatesScraper`
  with `get_year_data` (fetch and parse one year of monthly average
  exchange rates), `scrape_multiple_years` (aggregate a year range into
  a months-by-years table) and `save_to_excel` (export the table).
* `scrape-anywebsite/scrape.py` — a straight-line Selenium script that
  loads one page and dumps its rendered HTML to a file.

Network, HTML parsing by BeautifulSoup and the spreadsheet engine are
external: the embedding takes the parsed response structure (the
container element and its list entries) and the success or failure of
external I/O as explicit inputs, and models everything the Python code
itself computes.
-/

namespace PyTools

/-! ## Rate-text numeric extraction

`get_year_data` runs `re.search(r'[\d.]+', rate_text)` and then
`float(match.group())`.  The regex match is the first maximal run of
digit-or-dot characters; `float` on such a run succeeds exactly when the
run holds at least one digit and at most one dot.
-/

/-- Whitespace for Python's `str.strip` (the ASCII cases). -/
def isPySpace (c : Char) : Bool :=
  c = ' ' || c = '\t' || c = '\n' || c = '\r' || c = '\x0b' || c = '\x0c'

/-- Python `str.strip()`: remove leading and trailing whitespace. -/
def pyStrip (s : String) : String :=
  String.mk (((s.toList.dropWhile isPySpace).reverse.dropWhile isPySpace).reverse)

/-- A character matched by the character class of the regex `[\d.]+`. -/
def isNumChar (c : Char) : Bool := c.isDigit || c = '.'

/-- The first maximal run of digit-or-dot characters of `s`, as found by
`re.search` with pattern `[\d.]+`; `none` when no character matches. -/
def firstNumericRun (s : String) : Option String :=
  match s.toList.dropWhile (fun c => !isNumChar c) with
  | [] => none
  | c :: cs => some (String.mk ((c :: cs).takeWhile isNumChar))

/-- Numeric value of a list of decimal digit characters. -/
def digitsToNat (l : List Char) : Nat :=
  l.foldl (fun acc c => 10 * acc + (c.toNat - '0'.toNat)) 0

/-- The value produced by Python's `float` on a digit-or-dot run, kept
exactly: the digits read as one integer `mant` together with the number
`fexp` of digits after the dot, denoting `mant / 10 ^ fexp`. -/
structure PyFloat where
  mant : Nat
  fexp : Nat
deriving DecidableEq, Repr

/-- The real number a `PyFloat` denotes. -/
def PyFloat.toRat (v : PyFloat) : ℚ := (v.mant : ℚ) / (10 : ℚ) ^ v.fexp

/-- Python `float` applied to a digit-or-dot run: defined when the run
has at least one digit and at most one dot (`float "."` and
`float "1.2.3"` raise `ValueError`), returning the denoted value. -/
def pyFloatOfRun (s : String) : Option PyFloat :=
  let cs := s.toList
  if cs.any Char.isDigit && cs.count '.' ≤ 1 then
    let ip := cs.takeWhile (· ≠ '.')
    let fp := (cs.dropWhile (· ≠ '.')).drop 1
    some ⟨digitsToNat ip * 10 ^ fp.length + digitsToNat fp, fp.length⟩
  else
    none

/-! ## One year's fetch: `XRatesScraper.get_year_data`

The HTTP layer and BeautifulSoup are external, so the input of the
embedded function is the outcome of `session.get` + `soup.find`:
either a network-level exception (`requests.exceptions.RequestException`,
which includes timeouts, connection failures and the non-2xx statuses
raised by `raise_for_status`), or a response whose `OutputLinksAvg`
container is absent, or the container's `li` entries.  Each `li` entry
carries the text of its `avgMonth` span and of its `avgRate` span when
those sub-elements are present.
-/

/-- One `li` entry of the `OutputLinksAvg` container: the text of the
`span.avgMonth` and `span.avgRate` sub-elements, when present. -/
structure LiEntry where
  monthText : Option String
  rateText : Option String
deriving DecidableEq, Repr

/-- Outcome of `session.get` + `raise_for_status` + `soup.find`. -/
inductive FetchOutcome where
  /-- a `requests.exceptions.RequestException`: timeout, connection
  failure, or non-success HTTP status raised by `raise_for_status`. -/
  | netError
  /-- a response; `none` when the `OutputLinksAvg` container is absent. -/
  | ok (container : Option (List LiEntry))
deriving DecidableEq

/-- One year's mapping, as the Python dict `year_data`: an association
list in insertion order with unique keys. -/
abbrev YearData := List (String × PyFloat)

/-- Python dict assignment `d[k] = v`: update in place when the key
exists (keeping its position), append otherwise. -/
def dinsert {α β : Type} [DecidableEq α] (k : α) (v : β) :
    List (α × β) → List (α × β)
  | [] => [(k, v)]
  | (k₀, v₀) :: rest =>
      if k₀ = k then (k₀, v) :: rest else (k₀, v₀) :: dinsert k v rest

/-- The body of the `for li in output_links.find_all('li')` loop for one
entry: `.ok none` when the entry is skipped (a missing sub-element or a
rate text without a digit-or-dot character), `.ok (some (month, rate))`
when a rate is extracted, `.error ()` when `float` raises (a run with no
digit or several dots), which aborts the whole year. -/
def parseEntry (e : LiEntry) : Except Unit (Option (String × PyFloat)) :=
  match e.monthText, e.rateText with
  | some ms, some rs =>
      match firstNumericRun (pyStrip rs) with
      | some run =>
          match pyFloatOfRun run with
          | some r => .ok (some (pyStrip ms, r))
          | none => .error ()
      | none => .ok none
  | _, _ => .ok none

/-- The whole entry loop, threading the `year_data` dict. -/
def parseEntries : List LiEntry → YearData → Except Unit YearData
  | [], acc => .ok acc
  | e :: es, acc =>
      match parseEntry e with
      | .error _ => .error ()
      | .ok none => parseEntries es acc
      | .ok (some (m, r)) => parseEntries es (dinsert m r acc)

/-- `XRatesScraper.get_year_data` for one year: `none` is the "no data"
sentinel (network error, missing container, or a parsing exception
caught by the outer `except`), `some d` the per-year month-to-rate
dict. -/
def get_year_data (o : FetchOutcome) : Option YearData :=
  match o with
  | .netError => none
  | .ok none => none
  | .ok (some entries) =>
      match parseEntries entries [] with
      | .ok d => some d
      | .error _ => none

/-! ## Multi-year aggregation: `XRatesScraper.scrape_multiple_years`

The loop body calls `get_year_data` for each year of
`range(start_year, end_year + 1)`; the embedding abstracts the per-year
network interaction into a function `fetch : Int → Option YearData`
giving each year's `get_year_data` result.  `all_data` is a dict from
month label to a dict from year to rate; the final `DataFrame` is
reindexed to the calendar months actually present and its columns
(years) sorted ascending.
-/

/-- The inner per-month dict `all_data[month]`. -/
abbrev YearRates := List (Int × PyFloat)

/-- The accumulator dict `all_data`. -/
abbrev AllData := List (String × YearRates)

/-- `month_order`, the fixed calendar-order list of the 12 month
abbreviations. -/
def month_order : List String :=
  ["Jan", "Feb", "Mar", "Apr", "May", "Jun",
   "Jul", "Aug", "Sep", "Oct", "Nov", "Dec"]

/-- Keys of an association list, in insertion order. -/
def keysOf {α β : Type} (l : List (α × β)) : List α := l.map Prod.fst

/-- `if month not in all_data: all_data[month] = {}` followed by
`all_data[month][year] = rate`. -/
def addCell (m : String) (y : Int) (r : PyFloat) : AllData → AllData
  | [] => [(m, [(y, r)])]
  | (m₀, d₀) :: rest =>
      if m₀ = m then (m₀, dinsert y r d₀) :: rest
      else (m₀, d₀) :: addCell m y r rest

/-- The `for month, rate in year_data.items()` loop for one year. -/
def mergeYear (y : Int) (d : YearData) (ad : AllData) : AllData :=
  d.foldl (fun acc p => addCell p.1 y p.2 acc) ad

/-- Python `range(start_year, end_year + 1)`. -/
def yearRange (startY endY : Int) : List Int :=
  (List.range (endY + 1 - startY).toNat).map (fun i => startY + (i : Int))

/-- The year loop of `scrape_multiple_years`; `if year_data:` skips both
the `None` sentinel and an empty dict (both are falsy in Python). -/
def collectAllData (fetch : Int → Option YearData) (startY endY : Int) :
    AllData :=
  (yearRange startY endY).foldl
    (fun ad y =>
      match fetch y with
      | some d => if d.isEmpty then ad else mergeYear y d ad
      | none => ad)
    []

/-- Insert a year into a strictly-sorted list of years, keeping it
strictly sorted (used to model the sorted union of column labels
produced by `pd.DataFrame(...)` + `sort_index(axis=1)`). -/
def insertYear (y : Int) : List Int → List Int
  | [] => [y]
  | x :: xs =>
      if y < x then y :: x :: xs
      else if y = x then x :: xs
      else x :: insertYear y xs

/-- The column labels of `pd.DataFrame(all_data).T` after
`sort_index(axis=1)`: the set of years occurring in the inner dicts, in
strictly ascending order. -/
def sortedYears (ad : AllData) : List Int :=
  ad.foldl (fun acc p => p.2.foldl (fun a q => insertYear q.1 a) acc) []

/-- The final months-by-years `DataFrame`: row labels in calendar order
restricted to months present in `all_data`, column labels the years
sorted ascending, and the cells of `all_data` (a missing cell is
`NaN`, modelled by lookup failure on `data`). -/
structure Table where
  rows : List String
  cols : List Int
  data : AllData
deriving DecidableEq

/-- A cell of the table: `all_data[month].get(year)`; `none` is `NaN`. -/
def cellAt (t : Table) (m : String) (y : Int) : Option PyFloat :=
  match t.data.lookup m with
  | some d => d.lookup y
  | none => none

/-- `scrape_multiple_years`: run the year loop, then build the reindexed
and column-sorted `DataFrame`. -/
def scrape_multiple_years (startY endY : Int)
    (fetch : Int → Option YearData) : Table :=
  let ad := collectAllData fetch startY endY
  { rows := month_order.filter (fun m => decide (m ∈ keysOf ad))
    cols := sortedYears ad
    data := ad }

/-! ## Spreadsheet export: `XRatesScraper.save_to_excel`

The `openpyxl` engine is external; the embedding keeps the data the
Python code hands to it — the grid of stringified cells `to_excel`
writes (header row `Month :: years`, then one row per month) — and
models the `try/except` around the write as an explicit optional
exception input: `none` when the write succeeds, `some e` when some
step of the `with pd.ExcelWriter(...)` block raises `e`.
-/

/-- One spreadsheet cell as `to_excel` writes it: a label, a year, a
rate, or a blank (`NaN`). -/
inductive Cell where
  | text (s : String)
  | year (n : Int)
  | num (v : PyFloat)
  | blank
deriving DecidableEq

/-- The grid of cells written to the `Exchange Rates` sheet: the header
row `Month` followed by the year labels, then one row per month label
holding the month and its cells (blank for a `NaN` cell). -/
def sheetRows (t : Table) : List (List Cell) :=
  (Cell.text "Month" :: t.cols.map Cell.year) ::
    t.rows.map (fun m =>
      Cell.text m :: t.cols.map (fun y =>
        match cellAt t m y with
        | some r => Cell.num r
        | none => Cell.blank))

/-- The default output filename
`exchange_rates_{from}_to_{to}_{timestamp}.xlsx`. -/
def defaultFilename (fromC toC timestamp : String) : String :=
  "exchange_rates_" ++ fromC ++ "_to_" ++ toC ++ "_" ++ timestamp ++ ".xlsx"

/-- The body of the `with pd.ExcelWriter(filename) as writer:` block:
either the spreadsheet artifact (filename and sheet grid), or the
exception raised by the external writer. -/
def writeWorkbook (t : Table) (fname : String) (ioError : Option String) :
    Except String (String × List (List Cell)) :=
  match ioError with
  | some e => .error e
  | none => .ok (fname, sheetRows t)

/-- `save_to_excel`: pick the filename (auto-generated from the
currency pair and timestamp when absent), run the write, and catch any
exception, returning `none` — the absent-filename sentinel — instead of
propagating it. -/
def save_to_excel (t : Table) (filename : Option String)
    (fromC toC timestamp : String) (ioError : Option String) :
    Option String :=
  let fname :=
    match filename with
    | none => defaultFilename fromC toC timestamp
    | some f => f
  match writeWorkbook t fname ioError with
  | .ok (f, _) => some f
  | .error _ => none

/-! ## Page Snapshot Tool: `scrape-anywebsite/scrape.py`

A straight-line script with no `try`/`except`: launch headless Chrome,
`driver.get(url)`, `time.sleep(5)`, read `driver.page_source`, write it
to `scraper.html`, `driver.quit()`, print a done message.  Each external
step may raise; an exception ends the process immediately (unhandled),
skipping every later line.  The embedding takes each step's success as
input and returns the trace of completed steps together with whether the
process ended normally.
-/

/-- The observable steps of `scrape.py`, in program order. -/
inductive SnapEvent where
  /-- `webdriver.Chrome(...)` returned a session. -/
  | launchBrowser
  /-- `driver.get(url)` returned. -/
  | navigate
  /-- `time.sleep(5)` elapsed. -/
  | waitSettle
  /-- `driver.page_source` was read. -/
  | readSource
  /-- `scraper.html` was written (the only step creating the file). -/
  | writeOutput
  /-- `driver.quit()` closed the browser session. -/
  | quitBrowser
  /-- the final `print` ran. -/
  | printDone
deriving DecidableEq

/-- Success or failure of each fallible external step of `scrape.py`. -/
structure SnapshotWorld where
  launchOk : Bool
  navOk : Bool
  readOk : Bool
  writeOk : Bool
deriving DecidableEq

/-- Run `scrape.py`: the trace of completed steps and whether the
process terminated normally (`false` = an unhandled exception). -/
def runSnapshot (w : SnapshotWorld) : List SnapEvent × Bool :=
  if w.launchOk then
    if w.navOk then
      if w.readOk then
        if w.writeOk then
          ([.launchBrowser, .navigate, .waitSettle, .readSource,
            .writeOutput, .quitBrowser, .printDone], true)
        else
          ([.launchBrowser, .navigate, .waitSettle, .readSource], false)
      else ([.launchBrowser, .navigate, .waitSettle], false)
    else ([.launchBrowser], false)
  else ([], false)

/-! ## Concrete scenarios used in the statements below -/

/-- An entry qualifying as skippable in the sense of the spec: a missing
month sub-element, a missing rate sub-element, or a rate text with no
digit-or-dot character for the regex to match. -/
def Skippable (e : LiEntry) : Prop :=
  e.monthText = none ∨ e.rateText = none ∨
    ∃ rs, e.rateText = some rs ∧ firstNumericRun (pyStrip rs) = none

/-- Per-year fetch results around a simulated 2020 network timeout:
2019 and 2021 succeed, 2020 (and any other year) yields the sentinel. -/
def twoYearFetch : Int → Option YearData := fun y =>
  if y = 2019 then some [("Jan", ⟨741, 1⟩)]
  else if y = 2021 then some [("Jan", ⟨739, 1⟩)]
  else none

/-- The table with no rows and no columns. -/
def emptyTable : Table := { rows := [], cols := [], data := [] }

/-- A fetch whose every year returns the full month name `January`. -/
def januaryFetch : Int → Option YearData := fun _ =>
  some [("January", ⟨8350, 2⟩)]

/-- A fetch returning an empty mapping for 2020 and data for 2019. -/
def emptyYearFetch : Int → Option YearData := fun y =>
  if y = 2020 then some []
  else if y = 2019 then some [("Jan", ⟨741, 1⟩)] else none

/-- As `emptyYearFetch`, but 2020 returns the no-data sentinel. -/
def sentinelYearFetch : Int → Option YearData := fun y =>
  if y = 2020 then none
  else if y = 2019 then some [("Jan", ⟨741, 1⟩)] else none

/-! ## Helper lemmas -/

theorem parseEntry_of_skippable {e : LiEntry} (h : Skippable e) :
    parseEntry e = .ok none := by
  rcases h with h | h | ⟨rs, hrs, hrun⟩
  · unfold parseEntry
    rw [h]
  · unfold parseEntry
    rw [h]
    cases e.monthText <;> rfl
  · cases hm : e.monthText with
    | none => unfold parseEntry; rw [hm]
    | some ms => simp only [parseEntry, hm, hrs, hrun]

theorem parseEntries_skip {e : LiEntry} (he : parseEntry e = .ok none) :
    ∀ (L₁ L₂ : List LiEntry) (acc : YearData),
      parseEntries (L₁ ++ e :: L₂) acc = parseEntries (L₁ ++ L₂) acc := by
  intro L₁
  induction L₁ with
  | nil =>
      intro L₂ acc
      simp only [List.nil_append, parseEntries, he]
  | cons a L₁ ih =>
      intro L₂ acc
      simp only [List.cons_append, parseEntries]
      cases parseEntry a with
      | error _ => rfl
      | ok o =>
          cases o with
          | none => exact ih L₂ acc
          | some p => exact ih L₂ (dinsert p.1 p.2 acc)

theorem mem_dinsert {α β : Type} [DecidableEq α] {k : α} {v : β}
    {l : List (α × β)} {p : α × β} (h : p ∈ dinsert k v l) :
    p ∈ l ∨ p = (k, v) := by
  induction l with
  | nil => simpa [dinsert] using h
  | cons q l ih =>
      unfold dinsert at h
      by_cases hk : q.1 = k
      · rw [if_pos hk] at h
        rcases List.mem_cons.mp h with h | h
        · right; rw [h, ← hk]
        · left; exact List.mem_cons_of_mem _ h
      · rw [if_neg hk] at h
        rcases List.mem_cons.mp h with h | h
        · left; exact h ▸ List.mem_cons_self _ _
        · rcases ih h with h | h
          · left; exact List.mem_cons_of_mem _ h
          · right; exact h

theorem parseEntries_mem {es : List LiEntry} {acc d : YearData}
    (h : parseEntries es acc = .ok d) {p : String × PyFloat} (hp : p ∈ d) :
    p ∈ acc ∨ ∃ e ∈ es, parseEntry e = .ok (some p) := by
  induction es generalizing acc with
  | nil =>
      left
      unfold parseEntries at h
      cases h
      exact hp
  | cons e es ih =>
      unfold parseEntries at h
      cases he : parseEntry e with
      | error u => rw [he] at h; cases h
      | ok o =>
          rw [he] at h
          cases o with
          | none =>
              rcases ih h with h' | ⟨e', he', hpe⟩
              · left; exact h'
              · right; exact ⟨e', List.mem_cons_of_mem _ he', hpe⟩
          | some q =>
              rcases ih h with h' | ⟨e', he', hpe⟩
              · rcases mem_dinsert h' with h'' | h''
                · left; exact h''
                · right
                  refine ⟨e, List.mem_cons_self _ _, ?_⟩
                  rw [he, h'']
              · right; exact ⟨e', List.mem_cons_of_mem _ he', hpe⟩

theorem parseEntry_ok_some {e : LiEntry} {p : String × PyFloat}
    (h : parseEntry e = .ok (some p)) :
    (∃ ms, e.monthText = some ms ∧ p.1 = pyStrip ms) ∧
      ∃ s, pyFloatOfRun s = some p.2 := by
  unfold parseEntry at h
  cases hm : e.monthText with
  | none => rw [hm] at h; cases h
  | some ms =>
      cases hr : e.rateText with
      | none => rw [hm, hr] at h; cases h
      | some rs =>
          rw [hm, hr] at h
          cases hrun : firstNumericRun (pyStrip rs) with
          | none => simp only [hrun] at h; cases h
          | some run =>
              simp only [hrun] at h
              cases hv : pyFloatOfRun run with
              | none => simp only [hv] at h; cases h
              | some r =>
                  simp only [hv, Except.ok.injEq, Option.some.injEq] at h
                  exact ⟨⟨ms, rfl, by rw [← h]⟩, run, by rw [hv, ← h]⟩

theorem pyFloatOfRun_nonneg {s : String} {r : PyFloat}
    (h : pyFloatOfRun s = some r) : 0 ≤ r.toRat := by
  simp only [pyFloatOfRun] at h
  split at h
  · cases h
    unfold PyFloat.toRat
    positivity
  · cases h

theorem keysOf_addCell {m' m : String} {y : Int} {r : PyFloat}
    {ad : AllData} :
    m' ∈ keysOf (addCell m y r ad) ↔ m' ∈ keysOf ad ∨ m' = m := by
  induction ad with
  | nil => simp [addCell, keysOf]
  | cons q ad ih =>
      unfold addCell
      by_cases hq : q.1 = m
      · rw [if_pos hq]
        simp only [keysOf, List.map_cons, List.mem_cons]
        constructor
        · rintro (h | h)
          · left; left; exact h
          · left; right; exact h
        · rintro ((h | h) | h)
          · left; exact h
          · right; exact h
          · left; rw [h, hq]
      · rw [if_neg hq]
        simp only [keysOf, List.map_cons, List.mem_cons] at ih ⊢
        rw [ih]
        tauto

theorem keysOf_mergeYear {m : String} {y : Int} {d : YearData}
    {ad : AllData} :
    m ∈ keysOf (mergeYear y d ad) ↔ m ∈ keysOf ad ∨ ∃ r, (m, r) ∈ d := by
  induction d generalizing ad with
  | nil => simp [mergeYear]
  | cons p d ih =>
      unfold mergeYear at ih ⊢
      rw [List.foldl_cons, ih, keysOf_addCell]
      constructor
      · rintro ((h | h) | ⟨r, hr⟩)
        · left; exact h
        · right
          refine ⟨p.2, ?_⟩
          rw [h]
          simp
        · right; exact ⟨r, List.mem_cons_of_mem _ hr⟩
      · rintro (h | ⟨r, hr⟩)
        · left; left; exact h
        · rcases List.mem_cons.mp hr with h | h
          · left; right; exact congrArg Prod.fst h
          · right; exact ⟨r, h⟩

theorem keysOf_collect {fetch : Int → Option YearData} {m : String} :
    ∀ (ys : List Int) (ad₀ : AllData),
      (m ∈ keysOf (ys.foldl
        (fun ad y =>
          match fetch y with
          | some d => if d.isEmpty then ad else mergeYear y d ad
          | none => ad) ad₀)) ↔
      m ∈ keysOf ad₀ ∨
        ∃ y ∈ ys, ∃ d, fetch y = some d ∧ d ≠ [] ∧ ∃ r, (m, r) ∈ d := by
  intro ys
  induction ys with
  | nil => simp
  | cons y ys ih =>
      intro ad₀
      rw [List.foldl_cons, ih]
      have hstep : (m ∈ keysOf
          (match fetch y with
           | some d => if d.isEmpty then ad₀ else mergeYear y d ad₀
           | none => ad₀)) ↔
          m ∈ keysOf ad₀ ∨
            ∃ d, fetch y = some d ∧ d ≠ [] ∧ ∃ r, (m, r) ∈ d := by
        cases hf : fetch y with
        | none => simp [hf]
        | some d =>
            cases d with
            | nil => simp [hf]
            | cons p d' =>
                simp only [List.isEmpty_cons, if_false, Bool.false_eq_true,
                  ite_false, keysOf_mergeYear, hf, Option.some.injEq]
                constructor
                · rintro (h | ⟨r, hr⟩)
                  · left; exact h
                  · right; exact ⟨p :: d', rfl, List.cons_ne_nil _ _, r, hr⟩
                · rintro (h | ⟨d'', hd'', _, r, hr⟩)
                  · left; exact h
                  · right; exact ⟨r, hd'' ▸ hr⟩
      rw [hstep]
      simp only [List.mem_cons]
      constructor
      · rintro ((h | h) | ⟨y', hy', hrest⟩)
        · left; exact h
        · right; exact ⟨y, Or.inl rfl, h⟩
        · right; exact ⟨y', Or.inr hy', hrest⟩
      · rintro (h | ⟨y', hy' | hy', hrest⟩)
        · left; left; exact h
        · left; right; exact hy' ▸ hrest
        · right; exact ⟨y', hy', hrest⟩

theorem mem_insertYear {b y : Int} {l : List Int}
    (h : b ∈ insertYear y l) : b = y ∨ b ∈ l := by
  induction l with
  | nil => simpa [insertYear] using h
  | cons x xs ih =>
      unfold insertYear at h
      by_cases h₁ : y < x
      · rw [if_pos h₁] at h
        rcases List.mem_cons.mp h with h | h
        · left; exact h
        · right; exact h
      · rw [if_neg h₁] at h
        by_cases h₂ : y = x
        · rw [if_pos h₂] at h
          right; exact h
        · rw [if_neg h₂] at h
          rcases List.mem_cons.mp h with h | h
          · right; exact h ▸ List.mem_cons_self _ _
          · rcases ih h with h | h
            · left; exact h
            · right; exact List.mem_cons_of_mem _ h

theorem sorted_insertYear {y : Int} {l : List Int}
    (h : l.Sorted (· < ·)) : (insertYear y l).Sorted (· < ·) := by
  induction l with
  | nil => simp [insertYear]
  | cons x xs ih =>
      rw [List.sorted_cons] at h
      unfold insertYear
      by_cases h₁ : y < x
      · rw [if_pos h₁, List.sorted_cons]
        refine ⟨?_, List.sorted_cons.mpr h⟩
        intro b hb
        rcases List.mem_cons.mp hb with hb | hb
        · rw [hb]; exact h₁
        · exact lt_trans h₁ (h.1 b hb)
      · rw [if_neg h₁]
        by_cases h₂ : y = x
        · rw [if_pos h₂, List.sorted_cons]
          exact h
        · rw [if_neg h₂, List.sorted_cons]
          have hxy : x < y := lt_of_le_of_ne (not_lt.mp h₁) (fun hc => h₂ hc.symm)
          refine ⟨?_, ih h.2⟩
          intro b hb
          rcases mem_insertYear hb with hb | hb
          · rw [hb]; exact hxy
          · exact h.1 b hb

theorem sorted_foldl_inner (l : List (Int × PyFloat)) :
    ∀ acc : List Int, acc.Sorted (· < ·) →
      (l.foldl (fun a q => insertYear q.1 a) acc).Sorted (· < ·) := by
  induction l with
  | nil => intro acc h; exact h
  | cons q l ih =>
      intro acc h
      rw [List.foldl_cons]
      exact ih _ (sorted_insertYear h)

theorem sorted_sortedYears_aux (ad : AllData) :
    ∀ acc : List Int, acc.Sorted (· < ·) →
      (ad.foldl (fun acc p => p.2.foldl (fun a q => insertYear q.1 a) acc)
        acc).Sorted (· < ·) := by
  induction ad with
  | nil => intro acc h; exact h
  | cons p ad ih =>
      intro acc h
      rw [List.foldl_cons]
      exact ih _ (sorted_foldl_inner p.2 acc h)

theorem sortedYears_sorted (ad : AllData) :
    (sortedYears ad).Sorted (· < ·) :=
  sorted_sortedYears_aux ad [] (List.sorted_nil)

/-! ## Claim theorems -/

/-- C1: in `get_year_data`, a list entry missing the month or the rate
sub-element, or whose rate text yields no numeric match, is silently
skipped wherever it occurs — removing such an entry changes nothing, so
it never discards the surrounding entries or the whole year — and the
simulated response with entries Jan → "83.12 ₹" and Feb → "no data"
parses to exactly the mapping Jan ↦ 83.12. -/
theorem get_year_data_skips_bad_entries
    (L₁ L₂ : List LiEntry) (e : LiEntry) (h : Skippable e) :
    get_year_data (.ok (some (L₁ ++ e :: L₂))) =
      get_year_data (.ok (some (L₁ ++ L₂))) ∧
    get_year_data (.ok (some
      [⟨some "Jan", some "83.12 ₹"⟩, ⟨some "Feb", some "no data"⟩])) =
      some [("Jan", ⟨8312, 2⟩)] ∧
    PyFloat.toRat ⟨8312, 2⟩ = 83.12 := by
  refine ⟨?_, by decide, by norm_num [PyFloat.toRat]⟩
  simp only [get_year_data]
  rw [parseEntries_skip (parseEntry_of_skippable h)]

/-- Witness for C1, at the Feb → "no data" entry of the simulated
response. -/
theorem get_year_data_skips_bad_entries_witness :
    get_year_data (.ok (some
      ([] ++ (⟨some "Feb", some "no data"⟩ : LiEntry) :: []))) =
      get_year_data (.ok (some ([] ++ []))) ∧
    get_year_data (.ok (some
      [⟨some "Jan", some "83.12 ₹"⟩, ⟨some "Feb", some "no data"⟩])) =
      some [("Jan", ⟨8312, 2⟩)] ∧
    PyFloat.toRat ⟨8312, 2⟩ = 83.12 :=
  get_year_data_skips_bad_entries [] [] ⟨some "Feb", some "no data"⟩
    (Or.inr (Or.inr ⟨"no data", rfl, by decide⟩))

/-- C2 counterexample: a successful fetch can return a key outside the
fixed 12-label set — a container entry labelled `January` is accepted
verbatim, so the claim that every key is one of the 12 three-letter
abbreviations fails at this input. -/
theorem month_key_outside_fixed_set :
    get_year_data (.ok (some [⟨some "January", some "1.5"⟩])) =
      some [("January", ⟨15, 1⟩)] ∧
    "January" ∉ month_order := by decide

/-- C2 (amended): for every successfully fetched year, every value of
the per-year mapping is a non-negative real number, and every key is the
stripped month text of some container entry — which need not be one of
the 12 three-letter abbreviations. -/
theorem get_year_data_values_nonneg
    (entries : List LiEntry) (d : YearData)
    (h : get_year_data (.ok (some entries)) = some d) :
    ∀ p ∈ d, 0 ≤ p.2.toRat ∧
      ∃ e ∈ entries, ∃ ms, e.monthText = some ms ∧ p.1 = pyStrip ms := by
  intro p hp
  have hparse : parseEntries entries [] = .ok d := by
    unfold get_year_data at h
    cases hpe : parseEntries entries [] with
    | ok d' =>
        simp only [hpe, Option.some.injEq] at h
        rw [h]
    | error u =>
        simp only [hpe] at h
        exact Option.noConfusion h
  rcases parseEntries_mem hparse hp with h' | ⟨e, he, hpe⟩
  · cases h'
  · obtain ⟨⟨ms, hms, hp1⟩, s, hs⟩ := parseEntry_ok_some hpe
    exact ⟨pyFloatOfRun_nonneg hs, e, he, ms, hms, hp1⟩

/-- Witness for the amended C2, at a one-entry container. -/
theorem get_year_data_values_nonneg_witness :
    0 ≤ (("Jan", (⟨25, 1⟩ : PyFloat)) : String × PyFloat).2.toRat ∧
      ∃ e ∈ [(⟨some "Jan", some "2.5"⟩ : LiEntry)],
        ∃ ms, e.monthText = some ms ∧
          (("Jan", (⟨25, 1⟩ : PyFloat)) : String × PyFloat).1 = pyStrip ms :=
  get_year_data_values_nonneg [⟨some "Jan", some "2.5"⟩]
    [("Jan", ⟨25, 1⟩)] (by decide) ("Jan", ⟨25, 1⟩) (by decide)

/-- C3: for every aggregation run — any year range and any sequence of
per-year fetch results — the table's row order is a subsequence of
[Jan, ..., Dec], a row is present exactly for the months in the 12-label
set observed in some successful non-empty fetch of the range, and the
column order is strictly ascending by year. -/
theorem scrape_table_row_col_order (startY endY : Int)
    (fetch : Int → Option YearData) :
    (scrape_multiple_years startY endY fetch).rows.Sublist month_order ∧
    (∀ m, m ∈ (scrape_multiple_years startY endY fetch).rows ↔
      m ∈ month_order ∧ ∃ y ∈ yearRange startY endY, ∃ d,
        fetch y = some d ∧ d ≠ [] ∧ ∃ r, (m, r) ∈ d) ∧
    List.Chain' (· < ·) (scrape_multiple_years startY endY fetch).cols := by
  refine ⟨List.filter_sublist _, ?_, ?_⟩
  · intro m
    simp only [scrape_multiple_years, List.mem_filter, decide_eq_true_eq]
    unfold collectAllData
    rw [keysOf_collect (yearRange startY endY) []]
    simp [keysOf]
  · simp only [scrape_multiple_years]
    exact (sortedYears_sorted _).chain'

/-- C4: a network-level failure (timeout, connection failure,
non-success status) makes `get_year_data` return the no-data sentinel
instead of propagating; aggregating 2019–2021 when 2020's fetch failed
yields a table whose columns are exactly [2019, 2021] — 2020 is
entirely absent while the other years' cells are populated from their
fetch results. -/
theorem net_error_year_absent :
    get_year_data .netError = none ∧
    (scrape_multiple_years 2019 2021 twoYearFetch).cols = [2019, 2021] ∧
    (scrape_multiple_years 2019 2021 twoYearFetch).rows = ["Jan"] ∧
    cellAt (scrape_multiple_years 2019 2021 twoYearFetch) "Jan" 2019 =
      some ⟨741, 1⟩ ∧
    cellAt (scrape_multiple_years 2019 2021 twoYearFetch) "Jan" 2021 =
      some ⟨739, 1⟩ ∧
    ∀ m, cellAt (scrape_multiple_years 2019 2021 twoYearFetch) m 2020 =
      none := by
  refine ⟨rfl, by decide, by decide, by decide, by decide, ?_⟩
  intro m
  by_cases hm : m = "Jan"
  · subst hm; decide
  · have hd : (scrape_multiple_years 2019 2021 twoYearFetch).data =
        [("Jan", [(2019, ⟨741, 1⟩), (2021, ⟨739, 1⟩)])] := by decide
    unfold cellAt
    rw [hd]
    have hne : (m == "Jan") = false := beq_eq_false_iff_ne.mpr hm
    simp [List.lookup, hne]

/-- C5 counterexample: on the execution where writing the output file
fails, `scrape.py` terminates abnormally without reaching
`driver.quit()` — the browser session is not closed. -/
theorem snapshot_quit_skipped_on_write_failure :
    (runSnapshot ⟨true, true, true, false⟩).2 = false ∧
    SnapEvent.quitBrowser ∉ (runSnapshot ⟨true, true, true, false⟩).1 := by
  decide

/-- C5 (amended): the browser session is closed on every execution of
the Page Snapshot Tool that terminates normally; when reading the
rendered markup or writing the output file fails, the process dies with
the session still open. -/
theorem snapshot_quit_on_success (w : SnapshotWorld)
    (h : (runSnapshot w).2 = true) :
    SnapEvent.quitBrowser ∈ (runSnapshot w).1 := by
  obtain ⟨l, n, r, wr⟩ := w
  revert h
  cases l <;> cases n <;> cases r <;> cases wr <;> decide

/-- Witness for the amended C5, at the all-steps-succeed execution. -/
theorem snapshot_quit_on_success_witness :
    SnapEvent.quitBrowser ∈ (runSnapshot ⟨true, true, true, true⟩).1 :=
  snapshot_quit_on_success ⟨true, true, true, true⟩ (by decide)

/-- C6: exporting the empty table (no rows, no columns) succeeds: the
sheet written holds only the header row — the single `Month` header
cell, there being no year columns — and `save_to_excel` returns the
filename (the given one, or the generated default) rather than the
absent-filename sentinel; the empty table is exactly what aggregation
yields when every fetch failed. -/
theorem export_empty_table_succeeds (fn fromC toC ts : String) :
    sheetRows emptyTable = [[Cell.text "Month"]] ∧
    save_to_excel emptyTable (some fn) fromC toC ts none = some fn ∧
    save_to_excel emptyTable none fromC toC ts none =
      some (defaultFilename fromC toC ts) ∧
    scrape_multiple_years 2019 2021 (fun _ => none) = emptyTable :=
  ⟨rfl, rfl, rfl, by decide⟩

/-- C7: every failure raised during the spreadsheet write is caught
inside `save_to_excel` and signalled by returning the absent-filename
sentinel `None`, for every table, filename choice and exception — the
write body did raise, and the caller still receives a plain value. -/
theorem export_failure_caught (t : Table) (filename : Option String)
    (fromC toC ts e : String) :
    save_to_excel t filename fromC toC ts (some e) = none ∧
    writeWorkbook t
      (match filename with
       | none => defaultFilename fromC toC ts
       | some f => f) (some e) = .error e :=
  ⟨rfl, rfl⟩

/-- C8: if navigation fails, `scrape.py` terminates abnormally and the
output file is never written; moreover in every execution the write step
occurs only after navigation has succeeded. -/
theorem snapshot_no_file_on_nav_failure (w : SnapshotWorld) :
    (w.navOk = false → (runSnapshot w).2 = false ∧
      SnapEvent.writeOutput ∉ (runSnapshot w).1) ∧
    (SnapEvent.writeOutput ∈ (runSnapshot w).1 →
      SnapEvent.navigate ∈ (runSnapshot w).1) := by
  obtain ⟨l, n, r, wr⟩ := w
  cases l <;> cases n <;> cases r <;> cases wr <;> decide

/-- Witness for C8: a failed navigation leaves no output file, and the
successful execution's write is preceded by navigation. -/
theorem snapshot_no_file_on_nav_failure_witness :
    ((runSnapshot ⟨true, false, true, true⟩).2 = false ∧
      SnapEvent.writeOutput ∉ (runSnapshot ⟨true, false, true, true⟩).1) ∧
    SnapEvent.navigate ∈ (runSnapshot ⟨true, true, true, true⟩).1 :=
  ⟨(snapshot_no_file_on_nav_failure ⟨true, false, true, true⟩).1 rfl,
   (snapshot_no_file_on_nav_failure ⟨true, true, true, true⟩).2 (by decide)⟩

/-- C9: a month label outside the fixed 12-label set never appears as a
row of the final table even though the per-year fetch accepted it:
`get_year_data` accepts the full name `January`, aggregation stores it
in `all_data`, yet the row reordering step drops it. -/
theorem nonstandard_month_dropped (startY endY : Int)
    (fetch : Int → Option YearData) (m : String) (h : m ∉ month_order) :
    m ∉ (scrape_multiple_years startY endY fetch).rows ∧
    get_year_data (.ok (some [⟨some "January", some "83.50"⟩])) =
      some [("January", ⟨8350, 2⟩)] ∧
    (scrape_multiple_years 2023 2023 januaryFetch).rows = [] ∧
    "January" ∈ keysOf (scrape_multiple_years 2023 2023 januaryFetch).data := by
  refine ⟨?_, by decide, by decide, by decide⟩
  intro hc
  simp only [scrape_multiple_years, List.mem_filter] at hc
  exact h hc.1

/-- Witness for C9, at the label `January`. -/
theorem nonstandard_month_dropped_witness :
    "January" ∉ (scrape_multiple_years 2023 2023 januaryFetch).rows ∧
    get_year_data (.ok (some [⟨some "January", some "83.50"⟩])) =
      some [("January", ⟨8350, 2⟩)] ∧
    (scrape_multiple_years 2023 2023 januaryFetch).rows = [] ∧
    "January" ∈ keysOf (scrape_multiple_years 2023 2023 januaryFetch).data :=
  nonstandard_month_dropped 2023 2023 januaryFetch "January" (by decide)

/-- C10: a year fetching an empty mapping is treated exactly like a
year fetching the no-data sentinel: two per-year fetch sequences that
agree except that one returns the empty dict and the other `None` for
some year produce equal aggregated tables, over every year range. -/
theorem empty_year_equals_sentinel (startY endY y₀ : Int)
    (fetch₁ fetch₂ : Int → Option YearData)
    (h : ∀ y, y ≠ y₀ → fetch₁ y = fetch₂ y)
    (h₁ : fetch₁ y₀ = some []) (h₂ : fetch₂ y₀ = none) :
    scrape_multiple_years startY endY fetch₁ =
      scrape_multiple_years startY endY fetch₂ := by
  have hstep : ∀ (ad : AllData) (y : Int),
      (match fetch₁ y with
       | some d => if d.isEmpty then ad else mergeYear y d ad
       | none => ad) =
      (match fetch₂ y with
       | some d => if d.isEmpty then ad else mergeYear y d ad
       | none => ad) := by
    intro ad y
    by_cases hy : y = y₀
    · subst hy
      rw [h₁, h₂]
      rfl
    · rw [h y hy]
  have hcollect : collectAllData fetch₁ startY endY =
      collectAllData fetch₂ startY endY := by
    unfold collectAllData
    exact List.foldl_ext _ _ _ (fun ad y _ => hstep ad y)
  simp only [scrape_multiple_years, hcollect]

/-- Witness for C10: the 2019–2021 range where 2020 yields an empty
mapping on one side and the sentinel on the other. -/
theorem empty_year_equals_sentinel_witness :
    scrape_multiple_years 2019 2021 emptyYearFetch =
      scrape_multiple_years 2019 2021 sentinelYearFetch :=
  empty_year_equals_sentinel 2019 2021 2020 emptyYearFetch sentinelYearFetch
    (fun y hy => by simp [emptyYearFetch, sentinelYearFetch, hy])
    (by decide) (by decide)

end PyTools
